import Mathlib

/-!
Verification of the rsocket-go core transport and payload framing layer.

Bytes are modelled as natural numbers (every byte the encoders emit is
< 256 by construction); Go strings are modelled as their UTF-8 byte lists;
`time.Duration` and `time.Time` are modelled as natural numbers; Go `error`
values are modelled by the inductive `GoError`, with `nil` errors as `none`.
-/

/-! ## Frame flags and header (package `core`)

The `core` package is not part of the sources under verification; its
definitions are modelled from the spec wire format (§6.1). -/

/-- Frame flags: a 10-bit field. -/
abbrev FrameFlag := Nat

/-- Modelled from the spec: the generic `Metadata` flag bit (bit 8 of the
10-bit flag field, value 0x100, as in the RSocket frame layout). -/
def FlagMetadata : FrameFlag := 256

/-- Modelled from the spec: frame type code of Payload frames (0x0A). -/
def FrameTypePayload : Nat := 10

/-- Modelled from the spec: `FrameFlag.Check` is true when all bits of
`flag` are set in `f`. -/
def FrameFlag.Check (f flag : FrameFlag) : Bool := f &&& flag == flag

/-- Modelled from the spec: a frame header carries a 31-bit stream id, a
6-bit frame type and a 10-bit flag field (`core.FrameHeader`, not under
the verified sources). -/
structure FrameHeader where
  streamID : Nat
  frameType : Nat
  flag : FrameFlag
deriving DecidableEq, Repr

/-- Modelled from the spec: `core.NewFrameHeader`. -/
def NewFrameHeader (id : Nat) (t : Nat) (flag : FrameFlag) : FrameHeader :=
  ⟨id, t, flag⟩

/-- Modelled from the spec: the 6-byte wire encoding of a header — 4 bytes
of big-endian stream id (reserved bit 0), then 16 bits holding the frame
type in the top 6 bits and the flags in the low 10 bits. -/
def FrameHeader.WriteTo (h : FrameHeader) : List Nat :=
  [h.streamID / 2 ^ 24 % 256, h.streamID / 2 ^ 16 % 256,
   h.streamID / 2 ^ 8 % 256, h.streamID % 256,
   (h.frameType * 4 + h.flag / 256) % 256, h.flag % 256]

/-- Modelled from the spec: 24-bit big-endian encoding of a length. -/
def uint24BE (n : Nat) : List Nat :=
  [n / 2 ^ 16 % 256, n / 2 ^ 8 % 256, n % 256]

/-! ## WriteablePayloadFrame (`core/framing/writeable_payload.go`) -/

/-- Writeable Payload frame: header plus metadata and data byte slices. -/
structure WriteablePayloadFrame where
  header : FrameHeader
  metadata : List Nat
  data : List Nat
deriving DecidableEq, Repr

/-- `NewWriteablePayloadFrame`: adds the Metadata flag when metadata is
non-empty and builds a Payload header. -/
def NewWriteablePayloadFrame (id : Nat) (data metadata : List Nat)
    (flag : FrameFlag) : WriteablePayloadFrame :=
  let flag := if metadata.length > 0 then flag ||| FlagMetadata else flag
  { header := NewFrameHeader id FrameTypePayload flag
    metadata := metadata
    data := data }

/-- `WriteablePayloadFrame.Data`. -/
def WriteablePayloadFrame.Data (p : WriteablePayloadFrame) : List Nat :=
  p.data

/-- `WriteablePayloadFrame.Metadata`: returns the metadata bytes and
`ok = true` exactly when the Metadata flag is set. -/
def WriteablePayloadFrame.Metadata (p : WriteablePayloadFrame) :
    List Nat × Bool :=
  let ok := p.header.flag.Check FlagMetadata
  (if ok then p.metadata else [], ok)

/-- `WriteablePayloadFrame.DataUTF8` (strings modelled as byte lists). -/
def WriteablePayloadFrame.DataUTF8 (p : WriteablePayloadFrame) : List Nat :=
  p.data

/-- `WriteablePayloadFrame.MetadataUTF8` (strings modelled as byte
lists). -/
def WriteablePayloadFrame.MetadataUTF8 (p : WriteablePayloadFrame) :
    List Nat × Bool :=
  let ok := p.header.flag.Check FlagMetadata
  (if ok then p.metadata else [], ok)

/-- Modelled from the spec: the `writePayload` framing helper (not under
the verified sources) writes a 24-bit big-endian metadata length followed
by the metadata when metadata is present, then the data bytes. -/
def writePayload (data metadata : List Nat) : List Nat :=
  if metadata.length > 0 then uint24BE metadata.length ++ metadata ++ data
  else data

/-- `WriteablePayloadFrame.WriteTo`: header bytes, then metadata (length
prefixed), then data. -/
def WriteablePayloadFrame.WriteTo (p : WriteablePayloadFrame) : List Nat :=
  p.header.WriteTo ++ writePayload p.data p.metadata

/-- A decoded Payload frame. -/
structure DecodedPayloadFrame where
  streamID : Nat
  flag : FrameFlag
  metadata : Option (List Nat)
  data : List Nat
deriving DecidableEq, Repr

/-- Modelled from the spec: decoding a Payload frame — read the 6-byte
header (stream id masked to 31 bits), and when the Metadata flag is set
read a 3-byte big-endian metadata length, that many metadata bytes, and
the remaining bytes as data; truncation or an oversized metadata length
fails. -/
def decodePayloadFrame (bs : List Nat) : Option DecodedPayloadFrame :=
  match bs with
  | b0 :: b1 :: b2 :: b3 :: b4 :: b5 :: body =>
    let sid := (b0 * 2 ^ 24 + b1 * 2 ^ 16 + b2 * 2 ^ 8 + b3) % 2 ^ 31
    let ft := b4 / 4
    let flag : FrameFlag := b4 % 4 * 256 + b5
    if ft ≠ FrameTypePayload then none
    else if flag.Check FlagMetadata then
      match body with
      | m0 :: m1 :: m2 :: rest =>
        let l := m0 * 2 ^ 16 + m1 * 2 ^ 8 + m2
        if l ≤ rest.length then
          some ⟨sid, flag, some (rest.take l), rest.drop l⟩
        else none
      | _ => none
    else some ⟨sid, flag, none, body⟩
  | _ => none

/-! ## Transport (package `transport`, the transport source file)

Go `error` values are modelled by `GoError`; `errors.Wrap(err, msg)` by
`GoError.wrapped msg err`; `nil` errors by `none`. -/

/-- Go error values reachable in the transport layer. -/
inductive GoError
  /-- `io.EOF`. -/
  | eof
  /-- `errTransportClosed` ("transport closed"). -/
  | transportClosed
  /-- `errNoHandler` ("you must register a handler"). -/
  | noHandler
  /-- a context error (`ctx.Err()`). -/
  | ctxCanceled
  /-- the error decoded from an `ErrorFrame` (`ToError`): code and
  message. -/
  | errorFrame (code : Nat) (message : String)
  /-- any other I/O or application error. -/
  | ioError (message : String)
  /-- `errors.Wrap(inner, message)`. -/
  | wrapped (message : String) (inner : GoError)
deriving DecidableEq, Repr

/-- `IsNoHandlerError`: true exactly when the error is `errNoHandler`
itself (a wrapped `errNoHandler` does not compare equal). -/
def IsNoHandlerError (err : Option GoError) : Bool :=
  err == some GoError.noHandler

/-- The transport event types (`OnSetup .. OnKeepalive`). -/
inductive EventType
  | OnSetup
  | OnResume
  | OnLease
  | OnResumeOK
  | OnFireAndForget
  | OnMetadataPush
  | OnRequestResponse
  | OnRequestStream
  | OnRequestChannel
  | OnPayload
  | OnRequestN
  | OnError
  | OnErrorWithZeroStreamID
  | OnCancel
  | OnKeepalive
deriving DecidableEq, Repr

/-- The type-specific content of a buffered frame, with the fields the
transport inspects. -/
inductive FrameBody
  /-- Setup frame carrying its `MaxLifetime` value. -/
  | setup (maxLifetime : Nat)
  | lease
  /-- Keepalive frame carrying its `LastReceivedPosition`. -/
  | keepalive (lastReceivedPosition : Nat)
  | requestResponse
  | requestFNF
  | requestStream
  | requestChannel
  | requestN
  | cancel
  | payload
  /-- Error frame carrying its code and message. -/
  | error (code : Nat) (message : String)
  | metadataPush
  | resume
  /-- ResumeOK frame carrying its `LastReceivedClientPosition`. -/
  | resumeOK (lastReceivedClientPosition : Nat)
  /-- any frame type the dispatch switch does not match (Reserved, Ext). -/
  | ext
deriving DecidableEq, Repr

/-- A buffered frame as seen by the dispatcher: header stream id plus
typed body. -/
structure Frame where
  sid : Nat
  body : FrameBody
deriving DecidableEq, Repr

/-- A frame handler: takes the frame, returns `none` on success or a Go
error. -/
abbrev FrameHandler := Frame → Option GoError

/-- The connection collaborator, modelled by the results its methods
return when called (`none` = nil error). -/
structure Conn where
  writeRes : Option GoError
  flushRes : Option GoError
  setDeadlineRes : Option GoError
  closeRes : Option GoError
deriving DecidableEq, Repr

/-- The `Transport` struct state: connection (with a nil-ness bit),
`maxLifetime`, `lastRcvPos`, the handler table, and the `sync.Once`
close guard. `closeCount` counts invocations of `conn.Close`. -/
structure TransportState where
  connNil : Bool
  conn : Conn
  maxLifetime : Nat
  lastRcvPos : Nat
  handlers : EventType → Option FrameHandler
  onceDone : Bool
  closeCount : Nat

/-- Modelled from the spec: `common.DefaultKeepaliveMaxLifetime` (not
under the verified sources) — the typical 90 second default, in
milliseconds. -/
def DefaultKeepaliveMaxLifetime : Nat := 90000

/-- `NewTransport`: fresh transport over a connection, `maxLifetime` at
its default, remaining fields at their Go zero values. -/
def NewTransport (c : Conn) : TransportState :=
  { connNil := false
    conn := c
    maxLifetime := DefaultKeepaliveMaxLifetime
    lastRcvPos := 0
    handlers := fun _ => none
    onceDone := false
    closeCount := 0 }

/-- `Transport.Handle`: register a handler for an event type. -/
def Handle (st : TransportState) (event : EventType) (h : FrameHandler) :
    TransportState :=
  { st with handlers := fun e => if e = event then some h else st.handlers e }

/-- Observable side effects of dispatching one frame, in order. -/
inductive Effect
  /-- `logger.Warnf` for a dropped MetadataPush. -/
  | warn
  /-- `conn.SetDeadline(t)`. -/
  | setDeadline (t : Nat)
  /-- invocation of the handler registered for an event type. -/
  | invoke (e : EventType)
deriving DecidableEq, Repr

/-- Result of `DispatchFrame`: the new transport state, the effects in
order, and the returned error. -/
structure DispatchResult where
  st : TransportState
  effects : List Effect
  err : Option GoError

/-- The wrap message `fmt.Sprintf("handle frame %s failed:", type)`,
with the frame type name reduced to a fixed tag. -/
def handleFailedMsg : String := "handle frame failed:"

/-- The tail of `DispatchFrame` after the switch: set the deadline to
`now + maxLifetime`, fail when no handler is registered, otherwise invoke
the handler and wrap its error. `ev = none` models the switch falling
through with a nil handler. -/
def afterSwitch (st : TransportState) (now : Nat) (frame : Frame)
    (ev : Option EventType) : DispatchResult :=
  let deadline := now + st.maxLifetime
  match st.conn.setDeadlineRes with
  | some e => ⟨st, [.setDeadline deadline], some e⟩
  | none =>
    match ev with
    | none => ⟨st, [.setDeadline deadline], some .noHandler⟩
    | some e0 =>
      match st.handlers e0 with
      | none => ⟨st, [.setDeadline deadline], some .noHandler⟩
      | some h =>
        match h frame with
        | none => ⟨st, [.setDeadline deadline, .invoke e0], none⟩
        | some e =>
          ⟨st, [.setDeadline deadline, .invoke e0],
            some (.wrapped handleFailedMsg e)⟩

/-- `Transport.DispatchFrame`: the dispatch switch. MetadataPush with a
non-zero stream id is dropped with a warning before the deadline is set;
an Error frame with stream id 0 is decoded into an error value, handed to
the `OnErrorWithZeroStreamID` handler when registered, and returned,
also before the deadline is set; Setup updates `maxLifetime`; Keepalive
and ResumeOK update `lastRcvPos`. -/
def DispatchFrame (st : TransportState) (now : Nat) (frame : Frame) :
    DispatchResult :=
  match frame.body with
  | .setup ml =>
    afterSwitch { st with maxLifetime := ml } now frame (some .OnSetup)
  | .resume => afterSwitch st now frame (some .OnResume)
  | .resumeOK pos =>
    afterSwitch { st with lastRcvPos := pos } now frame (some .OnResumeOK)
  | .requestFNF => afterSwitch st now frame (some .OnFireAndForget)
  | .metadataPush =>
    if frame.sid ≠ 0 then ⟨st, [.warn], none⟩
    else afterSwitch st now frame (some .OnMetadataPush)
  | .requestResponse => afterSwitch st now frame (some .OnRequestResponse)
  | .requestStream => afterSwitch st now frame (some .OnRequestStream)
  | .requestChannel => afterSwitch st now frame (some .OnRequestChannel)
  | .payload => afterSwitch st now frame (some .OnPayload)
  | .requestN => afterSwitch st now frame (some .OnRequestN)
  | .error code msg =>
    if frame.sid = 0 then
      match st.handlers .OnErrorWithZeroStreamID with
      | some call =>
        let _ := call frame
        ⟨st, [.invoke .OnErrorWithZeroStreamID], some (.errorFrame code msg)⟩
      | none => ⟨st, [], some (.errorFrame code msg)⟩
    else afterSwitch st now frame (some .OnError)
  | .cancel => afterSwitch st now frame (some .OnCancel)
  | .keepalive pos =>
    afterSwitch { st with lastRcvPos := pos } now frame (some .OnKeepalive)
  | .lease => afterSwitch st now frame (some .OnLease)
  | .ext => afterSwitch st now frame none

/-- Result of `Transport.Send`: the returned error, and whether
`conn.Write`, `conn.Flush` and the deferred `frame.Done()` hook were
invoked. -/
structure SendResult where
  err : Option GoError
  wrote : Bool
  flushed : Bool
  done : Bool
deriving DecidableEq, Repr

/-- `Transport.Send(frame, flush)`: `p = none` models a nil receiver. The
deferred block invokes `frame.Done()` exactly when the final error is
nil. -/
def Send (p : Option TransportState) (flush : Bool) : SendResult :=
  match p with
  | none => ⟨some .transportClosed, false, false, false⟩
  | some st =>
    if st.connNil then ⟨some .transportClosed, false, false, false⟩
    else
      match st.conn.writeRes with
      | some e => ⟨some e, true, false, false⟩
      | none =>
        if !flush then ⟨none, true, false, true⟩
        else
          match st.conn.flushRes with
          | some e => ⟨some e, true, true, false⟩
          | none => ⟨none, true, true, true⟩

/-- `Transport.Close`: guarded by `sync.Once` — only the first call
invokes `conn.Close` and returns its error; later calls return nil. -/
def TClose (st : TransportState) : TransportState × Option GoError :=
  if st.onceDone then (st, none)
  else ({ st with onceDone := true, closeCount := st.closeCount + 1 },
        st.conn.closeRes)

/-- Repeated calls of `Transport.Close`, collecting each returned
error. -/
def closeRun : TransportState → Nat → TransportState × List (Option GoError)
  | st, 0 => (st, [])
  | st, n + 1 =>
    let (st1, r) := TClose st
    let (st2, rs) := closeRun st1 n
    (st2, r :: rs)

/-- One iteration input of the `Start` read loop: either the context is
done, or `conn.Read` returns (with the current time for the deadline
computation). -/
inductive StartStep
  | ctxDone
  | read (now : Nat) (r : Except GoError Frame)

/-- `Transport.Start`: loop over the scripted iterations; `defer p.Close()`
closes the transport on every return path. Returns `none` when the script
ends with the loop still running, otherwise the final state and the
returned error. -/
def startRun : TransportState → List StartStep →
    Option (TransportState × Option GoError)
  | _, [] => none
  | st, step :: rest =>
    match step with
    | .ctxDone => some ((TClose st).1, some .ctxCanceled)
    | .read now r =>
      let (st1, err) :=
        match r with
        | .error e => (st, some e)
        | .ok f =>
          let d := DispatchFrame st now f
          (d.st, d.err)
      match err with
      | none => startRun st1 rest
      | some e =>
        if e = .eof then some ((TClose st1).1, none)
        else
          some ((TClose st1).1,
            some (.wrapped "dispatch incoming frame failed:" e))

/-! ## Helper lemmas -/

/-- `afterSwitch` never changes the transport state. -/
theorem afterSwitch_st (st : TransportState) (now : Nat) (frame : Frame)
    (ev : Option EventType) : (afterSwitch st now frame ev).st = st := by
  unfold afterSwitch
  repeat' split
  all_goals rfl

/-- `afterSwitch` always records the `SetDeadline (now + maxLifetime)`
call. -/
theorem afterSwitch_mem_setDeadline (st : TransportState) (now : Nat)
    (frame : Frame) (ev : Option EventType) :
    Effect.setDeadline (now + st.maxLifetime) ∈
      (afterSwitch st now frame ev).effects := by
  unfold afterSwitch
  repeat' split
  all_goals simp

/-- Once the `sync.Once` guard fired, further `Close` calls do nothing. -/
theorem closeRun_onceDone (st : TransportState) (h : st.onceDone = true) :
    ∀ n, closeRun st n = (st, List.replicate n none) := by
  intro n
  induction n with
  | zero => simp [closeRun]
  | succ n ih =>
    simp only [closeRun, TClose, h, if_true]
    simp [ih, List.replicate_succ]

/-- A sample connection whose calls all succeed. -/
def connOK : Conn := ⟨none, none, none, none⟩

/-- A sample transport state over `connOK`. -/
def stW : TransportState := NewTransport connOK

/-! ## Claim theorems -/

/-- C10: `Transport.Close` is idempotent — over `n` calls the underlying
connection `Close` runs at most once (exactly on the first call when the
guard is fresh), and every call after the first returns nil. -/
theorem transport_close_idempotent (st : TransportState) (n : Nat)
    (h : st.onceDone = false) :
    (closeRun st n).1.closeCount = st.closeCount + min n 1 ∧
    (closeRun st n).2 =
      if n = 0 then []
      else st.conn.closeRes :: List.replicate (n - 1) none := by
  cases n with
  | zero => simp [closeRun]
  | succ n =>
    simp only [closeRun, TClose, h, if_false, Bool.false_eq_true]
    rw [closeRun_onceDone _ rfl]
    simp

/-- C10 witness: three `Close` calls on a fresh transport invoke the
connection `Close` once; the second and third calls return nil. -/
theorem transport_close_idempotent_witness :
    stW.onceDone = false ∧
    ((closeRun stW 3).1.closeCount = stW.closeCount + min 3 1 ∧
     (closeRun stW 3).2 =
       if 3 = 0 then []
       else stW.conn.closeRes :: List.replicate (3 - 1) none) :=
  ⟨rfl, transport_close_idempotent stW 3 rfl⟩

/-- C8: `Transport.Send` returns `transportClosed` when the transport or
its connection is nil (without writing); otherwise it writes the frame,
flushes exactly when `flush` is true and the write succeeded, propagates
write and flush errors, and invokes the `Done` hook exactly when the
whole operation succeeded. -/
theorem send_spec (p : Option TransportState) (flush : Bool) :
    ((Send p flush).done = true ↔ (Send p flush).err = none) ∧
    ((Send none flush).err = some .transportClosed ∧
      (Send none flush).wrote = false) ∧
    (∀ st, p = some st → st.connNil = true →
      (Send p flush).err = some .transportClosed ∧
      (Send p flush).wrote = false) ∧
    (∀ st, p = some st → st.connNil = false →
      (Send p flush).wrote = true) ∧
    ((Send p flush).flushed = true → flush = true) ∧
    (flush = false → (Send p flush).flushed = false) ∧
    (∀ st e, p = some st → st.connNil = false →
      st.conn.writeRes = some e →
      (Send p flush).err = some e ∧ (Send p flush).flushed = false) ∧
    (∀ st, p = some st → st.connNil = false → st.conn.writeRes = none →
      flush = true →
      (Send p flush).flushed = true ∧
      (Send p flush).err = st.conn.flushRes) := by
  have hmain : ∀ q, (Send q flush).done = true ↔ (Send q flush).err = none := by
    intro q
    cases q with
    | none => simp [Send]
    | some st =>
      by_cases hc : st.connNil <;>
        cases hw : st.conn.writeRes <;>
        cases hf : st.conn.flushRes <;>
        cases flush <;>
        simp [Send, hc, hw, hf]
  refine ⟨hmain p, by simp [Send], ?_, ?_, ?_, ?_, ?_, ?_⟩
  · rintro st rfl hc
    simp [Send, hc]
  · rintro st rfl hc
    cases hw : st.conn.writeRes <;>
      cases hf : st.conn.flushRes <;>
      cases flush <;>
      simp [Send, hc, hw, hf]
  · cases p with
    | none => simp [Send]
    | some st =>
      by_cases hc : st.connNil <;>
        cases hw : st.conn.writeRes <;>
        cases hf : st.conn.flushRes <;>
        cases flush <;>
        simp [Send, hc, hw, hf]
  · rintro rfl
    cases p with
    | none => simp [Send]
    | some st =>
      by_cases hc : st.connNil <;>
        cases hw : st.conn.writeRes <;>
        simp [Send, hc, hw]
  · rintro st e rfl hc hw
    cases flush <;> simp [Send, hc, hw]
  · rintro st rfl hc hw rfl
    cases hf : st.conn.flushRes <;> simp [Send, hc, hw, hf]

/-- C8 witness: on a live transport whose connection write and flush
succeed, `Send` with `flush = true` flushes, succeeds, and runs the
`Done` hook. -/
theorem send_spec_witness :
    stW.connNil = false ∧ stW.conn.writeRes = none ∧
    ((Send (some stW) true).flushed = true ∧
     (Send (some stW) true).err = stW.conn.flushRes) ∧
    ((Send (some stW) true).done = true ↔ (Send (some stW) true).err = none) :=
  ⟨rfl, rfl,
    (send_spec (some stW) true).2.2.2.2.2.2.2 stW rfl rfl rfl rfl,
    (send_spec (some stW) true).1⟩

/-- C7: dispatching a Keepalive frame sets `lastRcvPos` to its
`LastReceivedPosition` and dispatching a ResumeOK frame sets it to its
`LastReceivedClientPosition` (before the handler is looked up, so the
update happens even when the handler fails or is missing); every other
frame type leaves `lastRcvPos` unchanged. -/
theorem dispatch_lastRcvPos (st : TransportState) (now : Nat) (f : Frame) :
    (∀ pos, f.body = .keepalive pos →
      (DispatchFrame st now f).st.lastRcvPos = pos) ∧
    (∀ pos, f.body = .resumeOK pos →
      (DispatchFrame st now f).st.lastRcvPos = pos) ∧
    ((∀ pos, f.body ≠ .keepalive pos) → (∀ pos, f.body ≠ .resumeOK pos) →
      (DispatchFrame st now f).st.lastRcvPos = st.lastRcvPos) := by
  obtain ⟨sid, body⟩ := f
  refine ⟨?_, ?_, ?_⟩
  · rintro pos rfl
    simp [DispatchFrame, afterSwitch_st]
  · rintro pos rfl
    simp [DispatchFrame, afterSwitch_st]
  · intro h1 h2
    cases body with
    | keepalive p => exact absurd rfl (h1 p)
    | resumeOK p => exact absurd rfl (h2 p)
    | metadataPush =>
      simp only [DispatchFrame]
      split
      · rfl
      · simp [afterSwitch_st]
    | error c m =>
      simp only [DispatchFrame]
      split
      · split <;> rfl
      · simp [afterSwitch_st]
    | _ => simp [DispatchFrame, afterSwitch_st]

/-- C7 witness: a Keepalive frame with position 42 updates `lastRcvPos`
to 42, a ResumeOK frame with position 7 updates it to 7, and a Cancel
frame leaves it at its initial value 0. -/
theorem dispatch_lastRcvPos_witness :
    (DispatchFrame stW 5 ⟨0, .keepalive 42⟩).st.lastRcvPos = 42 ∧
    (DispatchFrame stW 5 ⟨0, .resumeOK 7⟩).st.lastRcvPos = 7 ∧
    (DispatchFrame stW 5 ⟨9, .cancel⟩).st.lastRcvPos = stW.lastRcvPos :=
  ⟨(dispatch_lastRcvPos stW 5 ⟨0, .keepalive 42⟩).1 42 rfl,
   (dispatch_lastRcvPos stW 5 ⟨0, .resumeOK 7⟩).2.1 7 rfl,
   (dispatch_lastRcvPos stW 5 ⟨9, .cancel⟩).2.2
     (fun _ h => FrameBody.noConfusion h)
     (fun _ h => FrameBody.noConfusion h)⟩

/-- C2 counterexample: a MetadataPush frame with stream id 1 is read and
dispatched successfully (it is dropped), yet no deadline is set — in
particular not `now + maxLifetime` — refuting "on each successful read,
including frames that are dropped". -/
theorem dispatch_deadline_counterexample :
    (DispatchFrame stW 5 ⟨1, .metadataPush⟩).effects = [.warn] ∧
    Effect.setDeadline (5 + stW.maxLifetime) ∉
      (DispatchFrame stW 5 ⟨1, .metadataPush⟩).effects := by
  refine ⟨rfl, ?_⟩
  simp [DispatchFrame]

/-- C2 (amended): `maxLifetime` starts at the default; a Setup frame
overrides it before the deadline is computed; the deadline
`now + maxLifetime` is set for every dispatched frame except dropped
MetadataPush frames (non-zero stream id) and Error frames with stream
id 0, which return before the deadline is set. -/
theorem dispatch_deadline_spec (c : Conn) (st : TransportState) (now : Nat)
    (f : Frame) :
    (NewTransport c).maxLifetime = DefaultKeepaliveMaxLifetime ∧
    (∀ ml, f.body = .setup ml →
      (DispatchFrame st now f).st.maxLifetime = ml ∧
      Effect.setDeadline (now + ml) ∈ (DispatchFrame st now f).effects) ∧
    (¬(f.body = .metadataPush ∧ f.sid ≠ 0) →
      (∀ cd m, ¬(f.body = .error cd m ∧ f.sid = 0)) →
      Effect.setDeadline (now + (DispatchFrame st now f).st.maxLifetime) ∈
        (DispatchFrame st now f).effects) ∧
    (f.body = .metadataPush → f.sid ≠ 0 →
      ∀ t, Effect.setDeadline t ∉ (DispatchFrame st now f).effects) ∧
    (∀ cd m, f.body = .error cd m → f.sid = 0 →
      ∀ t, Effect.setDeadline t ∉ (DispatchFrame st now f).effects) := by
  obtain ⟨sid, body⟩ := f
  refine ⟨rfl, ?_, ?_, ?_, ?_⟩
  · rintro ml rfl
    constructor
    · simp [DispatchFrame, afterSwitch_st]
    · have h := afterSwitch_mem_setDeadline { st with maxLifetime := ml } now
        ⟨sid, .setup ml⟩ (some .OnSetup)
      simpa [DispatchFrame] using h
  · intro hmd herr
    cases body with
    | metadataPush =>
      have hsid : sid = 0 := by
        by_contra hne
        exact hmd ⟨rfl, hne⟩
      subst hsid
      have h := afterSwitch_mem_setDeadline st now
        ⟨0, .metadataPush⟩ (some .OnMetadataPush)
      simpa [DispatchFrame, afterSwitch_st] using h
    | error cd m =>
      have hsid : sid ≠ 0 := fun h0 => herr cd m ⟨rfl, h0⟩
      have h := afterSwitch_mem_setDeadline st now
        ⟨sid, .error cd m⟩ (some .OnError)
      simpa [DispatchFrame, hsid, afterSwitch_st] using h
    | setup ml =>
      have h := afterSwitch_mem_setDeadline { st with maxLifetime := ml } now
        ⟨sid, .setup ml⟩ (some .OnSetup)
      simpa [DispatchFrame, afterSwitch_st] using h
    | keepalive p =>
      have h := afterSwitch_mem_setDeadline { st with lastRcvPos := p } now
        ⟨sid, .keepalive p⟩ (some .OnKeepalive)
      simpa [DispatchFrame, afterSwitch_st] using h
    | resumeOK p =>
      have h := afterSwitch_mem_setDeadline { st with lastRcvPos := p } now
        ⟨sid, .resumeOK p⟩ (some .OnResumeOK)
      simpa [DispatchFrame, afterSwitch_st] using h
    | lease =>
      have h := afterSwitch_mem_setDeadline st now ⟨sid, .lease⟩
        (some .OnLease)
      simpa [DispatchFrame, afterSwitch_st] using h
    | requestResponse =>
      have h := afterSwitch_mem_setDeadline st now ⟨sid, .requestResponse⟩
        (some .OnRequestResponse)
      simpa [DispatchFrame, afterSwitch_st] using h
    | requestFNF =>
      have h := afterSwitch_mem_setDeadline st now ⟨sid, .requestFNF⟩
        (some .OnFireAndForget)
      simpa [DispatchFrame, afterSwitch_st] using h
    | requestStream =>
      have h := afterSwitch_mem_setDeadline st now ⟨sid, .requestStream⟩
        (some .OnRequestStream)
      simpa [DispatchFrame, afterSwitch_st] using h
    | requestChannel =>
      have h := afterSwitch_mem_setDeadline st now ⟨sid, .requestChannel⟩
        (some .OnRequestChannel)
      simpa [DispatchFrame, afterSwitch_st] using h
    | requestN =>
      have h := afterSwitch_mem_setDeadline st now ⟨sid, .requestN⟩
        (some .OnRequestN)
      simpa [DispatchFrame, afterSwitch_st] using h
    | cancel =>
      have h := afterSwitch_mem_setDeadline st now ⟨sid, .cancel⟩
        (some .OnCancel)
      simpa [DispatchFrame, afterSwitch_st] using h
    | payload =>
      have h := afterSwitch_mem_setDeadline st now ⟨sid, .payload⟩
        (some .OnPayload)
      simpa [DispatchFrame, afterSwitch_st] using h
    | resume =>
      have h := afterSwitch_mem_setDeadline st now ⟨sid, .resume⟩
        (some .OnResume)
      simpa [DispatchFrame, afterSwitch_st] using h
    | ext =>
      have h := afterSwitch_mem_setDeadline st now ⟨sid, .ext⟩ none
      simpa [DispatchFrame, afterSwitch_st] using h
  · rintro rfl hs t
    simp [DispatchFrame, hs]
  · rintro cd m rfl hs t
    have hs' : sid = 0 := hs
    subst hs'
    simp only [DispatchFrame]
    cases hh : st.handlers EventType.OnErrorWithZeroStreamID <;> simp [hh]

/-- C2 witness: a Setup frame with MaxLifetime 1234 updates
`maxLifetime` and the deadline `now + 1234` is set; the default lifetime
holds on a fresh transport. -/
theorem dispatch_deadline_spec_witness :
    (NewTransport connOK).maxLifetime = DefaultKeepaliveMaxLifetime ∧
    ((DispatchFrame stW 5 ⟨0, .setup 1234⟩).st.maxLifetime = 1234 ∧
     Effect.setDeadline (5 + 1234) ∈
       (DispatchFrame stW 5 ⟨0, .setup 1234⟩).effects) :=
  ⟨(dispatch_deadline_spec connOK stW 5 ⟨0, .setup 1234⟩).1,
   (dispatch_deadline_spec connOK stW 5 ⟨0, .setup 1234⟩).2.1 1234 rfl⟩

/-- C6: a MetadataPush frame with non-zero stream id is dropped — only a
warning is logged, no handler runs, no error is returned, the state is
untouched and the `Start` loop simply continues; a MetadataPush frame
with stream id 0 is dispatched to the `OnMetadataPush` handler. -/
theorem dispatch_metadataPush_spec (st : TransportState) (now : Nat)
    (sid : Nat) :
    (sid ≠ 0 →
      (DispatchFrame st now ⟨sid, .metadataPush⟩).err = none ∧
      (DispatchFrame st now ⟨sid, .metadataPush⟩).effects = [.warn] ∧
      (DispatchFrame st now ⟨sid, .metadataPush⟩).st = st) ∧
    (sid ≠ 0 → ∀ rest,
      startRun st (.read now (.ok ⟨sid, .metadataPush⟩) :: rest) =
        startRun st rest) ∧
    (∀ h, st.handlers .OnMetadataPush = some h →
      st.conn.setDeadlineRes = none →
      Effect.invoke .OnMetadataPush ∈
        (DispatchFrame st now ⟨0, .metadataPush⟩).effects) := by
  refine ⟨?_, ?_, ?_⟩
  · intro hs
    refine ⟨?_, ?_, ?_⟩ <;> simp [DispatchFrame, hs]
  · intro hs rest
    simp [startRun, DispatchFrame, hs]
  · intro h hh hd
    have heq : DispatchFrame st now ⟨0, .metadataPush⟩ =
        afterSwitch st now ⟨0, .metadataPush⟩ (some .OnMetadataPush) := rfl
    rw [heq]
    simp only [afterSwitch, hd, hh]
    split <;> simp

/-- C6 witness: with an `OnMetadataPush` handler registered, a
MetadataPush with stream id 9 is dropped with only a warning and a nil
error, while one with stream id 0 reaches the handler. -/
theorem dispatch_metadataPush_spec_witness :
    ((DispatchFrame (Handle stW .OnMetadataPush fun _ => none) 3
        ⟨9, .metadataPush⟩).err = none ∧
     (DispatchFrame (Handle stW .OnMetadataPush fun _ => none) 3
        ⟨9, .metadataPush⟩).effects = [.warn] ∧
     (DispatchFrame (Handle stW .OnMetadataPush fun _ => none) 3
        ⟨9, .metadataPush⟩).st = Handle stW .OnMetadataPush fun _ => none) ∧
    Effect.invoke .OnMetadataPush ∈
      (DispatchFrame (Handle stW .OnMetadataPush fun _ => none) 3
        ⟨0, .metadataPush⟩).effects :=
  ⟨(dispatch_metadataPush_spec (Handle stW .OnMetadataPush fun _ => none)
      3 9).1 (by decide),
   (dispatch_metadataPush_spec (Handle stW .OnMetadataPush fun _ => none)
      3 0).2.2 (fun _ => none) rfl rfl⟩

/-- C4: an Error frame with stream id 0 is decoded into an error value
which `DispatchFrame` returns (terminating the connection: the `Start`
loop returns it wrapped); the `OnErrorWithZeroStreamID` handler is
invoked exactly when registered; an Error frame with non-zero stream id
goes to the `OnError` handler instead. -/
theorem dispatch_zero_sid_error_spec (st : TransportState) (now : Nat)
    (code : Nat) (msg : String) :
    (DispatchFrame st now ⟨0, .error code msg⟩).err =
      some (.errorFrame code msg) ∧
    (∀ h, st.handlers .OnErrorWithZeroStreamID = some h →
      (DispatchFrame st now ⟨0, .error code msg⟩).effects =
        [.invoke .OnErrorWithZeroStreamID]) ∧
    (st.handlers .OnErrorWithZeroStreamID = none →
      (DispatchFrame st now ⟨0, .error code msg⟩).effects = []) ∧
    (∀ sid, sid ≠ 0 → ∀ h, st.handlers .OnError = some h →
      st.conn.setDeadlineRes = none →
      Effect.invoke .OnError ∈
        (DispatchFrame st now ⟨sid, .error code msg⟩).effects) ∧
    (∀ rest, startRun st (.read now (.ok ⟨0, .error code msg⟩) :: rest) =
      some ((TClose (DispatchFrame st now ⟨0, .error code msg⟩).st).1,
        some (.wrapped "dispatch incoming frame failed:"
          (.errorFrame code msg)))) := by
  have herr : (DispatchFrame st now ⟨0, .error code msg⟩).err =
      some (.errorFrame code msg) := by
    simp only [DispatchFrame]
    cases hh : st.handlers EventType.OnErrorWithZeroStreamID <;> simp [hh]
  refine ⟨herr, ?_, ?_, ?_, ?_⟩
  · intro h hh
    simp [DispatchFrame, hh]
  · intro hh
    simp [DispatchFrame, hh]
  · intro sid hs h hh hd
    have heq : DispatchFrame st now ⟨sid, .error code msg⟩ =
        afterSwitch st now ⟨sid, .error code msg⟩ (some .OnError) := by
      simp [DispatchFrame, hs]
    rw [heq]
    simp only [afterSwitch, hd, hh]
    split <;> simp
  · intro rest
    simp [startRun, herr]

/-- C4 witness: with an `OnErrorWithZeroStreamID` handler registered, a
zero-stream-id Error frame with code 0x0101 yields the decoded error and
the handler invocation; with none registered no handler runs. -/
theorem dispatch_zero_sid_error_spec_witness :
    (DispatchFrame (Handle stW .OnErrorWithZeroStreamID fun _ => none) 2
        ⟨0, .error 257 "conn gone"⟩).err =
      some (.errorFrame 257 "conn gone") ∧
    (DispatchFrame (Handle stW .OnErrorWithZeroStreamID fun _ => none) 2
        ⟨0, .error 257 "conn gone"⟩).effects =
      [.invoke .OnErrorWithZeroStreamID] ∧
    (DispatchFrame stW 2 ⟨0, .error 257 "conn gone"⟩).effects = [] :=
  ⟨(dispatch_zero_sid_error_spec
      (Handle stW .OnErrorWithZeroStreamID fun _ => none) 2 257
      "conn gone").1,
   (dispatch_zero_sid_error_spec
      (Handle stW .OnErrorWithZeroStreamID fun _ => none) 2 257
      "conn gone").2.1 (fun _ => none) rfl,
   (dispatch_zero_sid_error_spec stW 2 257 "conn gone").2.2.1 rfl⟩

/-- The event type the dispatch switch selects for each frame type
(`none` for types the switch does not match). -/
def eventOf : FrameBody → Option EventType
  | .setup _ => some .OnSetup
  | .lease => some .OnLease
  | .keepalive _ => some .OnKeepalive
  | .requestResponse => some .OnRequestResponse
  | .requestFNF => some .OnFireAndForget
  | .requestStream => some .OnRequestStream
  | .requestChannel => some .OnRequestChannel
  | .requestN => some .OnRequestN
  | .cancel => some .OnCancel
  | .payload => some .OnPayload
  | .error _ _ => some .OnError
  | .metadataPush => some .OnMetadataPush
  | .resume => some .OnResume
  | .resumeOK _ => some .OnResumeOK
  | .ext => none

/-- C5 counterexample: on a fresh transport with no handlers at all, a
MetadataPush frame with stream id 1 — whose type has no registered
handler — makes `DispatchFrame` return nil, not the NoHandler error. -/
theorem dispatch_noHandler_counterexample :
    stW.handlers .OnMetadataPush = none ∧
    (DispatchFrame stW 0 ⟨1, .metadataPush⟩).err = none ∧
    IsNoHandlerError (DispatchFrame stW 0 ⟨1, .metadataPush⟩).err = false :=
  ⟨rfl, rfl, rfl⟩

/-- C5 (amended): for every frame that reaches the dispatch step — i.e.
not a MetadataPush with non-zero stream id and not an Error with stream
id 0 — when `SetDeadline` succeeds and no handler is registered for its
type, `DispatchFrame` returns the NoHandler error (recognized by
`IsNoHandlerError`) and the `Start` loop returns it wrapped (fatal). -/
theorem dispatch_noHandler_spec (st : TransportState) (now : Nat) (f : Frame)
    (hmd : ¬(f.body = .metadataPush ∧ f.sid ≠ 0))
    (herr : ∀ c m, f.body = .error c m → f.sid ≠ 0)
    (hdl : st.conn.setDeadlineRes = none)
    (hno : ∀ ev, eventOf f.body = some ev → st.handlers ev = none) :
    (DispatchFrame st now f).err = some .noHandler ∧
    IsNoHandlerError (DispatchFrame st now f).err = true ∧
    ∀ rest, startRun st (.read now (.ok f) :: rest) =
      some ((TClose (DispatchFrame st now f).st).1,
        some (.wrapped "dispatch incoming frame failed:" .noHandler)) := by
  have hkey : (DispatchFrame st now f).err = some .noHandler := by
    obtain ⟨sid, body⟩ := f
    cases body with
    | metadataPush =>
      have hsid : sid = 0 := by
        by_contra h
        exact hmd ⟨rfl, h⟩
      subst hsid
      have h := hno .OnMetadataPush rfl
      simp [DispatchFrame, afterSwitch, hdl, h]
    | error c m =>
      have hsid : sid ≠ 0 := herr c m rfl
      have h := hno .OnError rfl
      simp [DispatchFrame, hsid, afterSwitch, hdl, h]
    | ext => simp [DispatchFrame, afterSwitch, hdl]
    | _ => simp [DispatchFrame, afterSwitch, hdl, hno _ rfl]
  refine ⟨hkey, by simp [IsNoHandlerError, hkey], ?_⟩
  intro rest
  simp [startRun, hkey]

/-- C5 witness: on a fresh transport with no handlers, a Payload frame
yields the NoHandler error and the `Start` loop returns it wrapped. -/
theorem dispatch_noHandler_spec_witness :
    stW.conn.setDeadlineRes = none ∧
    stW.handlers .OnPayload = none ∧
    ((DispatchFrame stW 0 ⟨1, .payload⟩).err = some .noHandler ∧
     IsNoHandlerError (DispatchFrame stW 0 ⟨1, .payload⟩).err = true ∧
     startRun stW [.read 0 (.ok ⟨1, .payload⟩)] =
       some ((TClose (DispatchFrame stW 0 ⟨1, .payload⟩).st).1,
         some (.wrapped "dispatch incoming frame failed:" .noHandler))) := by
  have h := dispatch_noHandler_spec stW 0 ⟨1, .payload⟩
    (fun hc => FrameBody.noConfusion hc.1)
    (fun _ _ hc => FrameBody.noConfusion hc)
    rfl (fun _ _ => rfl)
  exact ⟨rfl, rfl, h.1, h.2.1, h.2.2 []⟩

/-- After any `Close` call, the `sync.Once` guard has fired. -/
theorem TClose_onceDone (st : TransportState) :
    (TClose st).1.onceDone = true := by
  unfold TClose
  split
  · next h => exact h
  · rfl

/-- Every value `startRun` returns has been through `TClose` (the
deferred `Close` in `Start`). -/
theorem startRun_onceDone (steps : List StartStep) :
    ∀ st st2 r, startRun st steps = some (st2, r) → st2.onceDone = true := by
  induction steps with
  | nil =>
    intro st st2 r h
    simp [startRun] at h
  | cons step rest ih =>
    intro st st2 r h
    cases step with
    | ctxDone =>
      simp only [startRun, Option.some.injEq, Prod.mk.injEq] at h
      rw [← h.1]
      exact TClose_onceDone st
    | read now r0 =>
      cases r0 with
      | error e =>
        by_cases he : e = .eof
        · subst he
          simp only [startRun] at h
          simp only [Option.some.injEq, Prod.mk.injEq, reduceIte] at h
          rw [← h.1]
          exact TClose_onceDone st
        · simp only [startRun, he, if_false] at h
          simp only [if_neg he, Option.some.injEq, Prod.mk.injEq] at h
          rw [← h.1]
          exact TClose_onceDone st
      | ok f =>
        cases hd : (DispatchFrame st now f).err with
        | none =>
          simp only [startRun, hd] at h
          exact ih _ _ _ h
        | some e =>
          by_cases he : e = .eof
          · subst he
            simp only [startRun, hd, Option.some.injEq, Prod.mk.injEq,
              reduceIte] at h
            rw [← h.1]
            exact TClose_onceDone _
          · simp only [startRun, hd, if_neg he, Option.some.injEq,
              Prod.mk.injEq] at h
            rw [← h.1]
            exact TClose_onceDone _

/-- C3: the `Start` loop returns nil on `io.EOF` from a read, returns any
other read or dispatch error wrapped, returns the context error when the
context is done, continues when read and dispatch succeed — and in every
returning case the transport has been closed (the `sync.Once` guard has
fired) before returning. -/
theorem start_spec (st : TransportState) :
    (∀ steps st2 r, startRun st steps = some (st2, r) →
      st2.onceDone = true) ∧
    (∀ now rest, startRun st (.read now (.error .eof) :: rest) =
      some ((TClose st).1, none)) ∧
    (∀ now e rest, e ≠ .eof →
      startRun st (.read now (.error e) :: rest) =
        some ((TClose st).1,
          some (.wrapped "dispatch incoming frame failed:" e))) ∧
    (∀ now f rest e, (DispatchFrame st now f).err = some e → e ≠ .eof →
      startRun st (.read now (.ok f) :: rest) =
        some ((TClose (DispatchFrame st now f).st).1,
          some (.wrapped "dispatch incoming frame failed:" e))) ∧
    (∀ rest, startRun st (.ctxDone :: rest) =
      some ((TClose st).1, some .ctxCanceled)) ∧
    (∀ now f rest, (DispatchFrame st now f).err = none →
      startRun st (.read now (.ok f) :: rest) =
        startRun (DispatchFrame st now f).st rest) := by
  refine ⟨fun steps => startRun_onceDone steps st, ?_, ?_, ?_, ?_, ?_⟩
  · intro now rest
    simp [startRun]
  · intro now e rest he
    simp [startRun, he]
  · intro now f rest e hd he
    simp [startRun, hd, he]
  · intro rest
    simp [startRun]
  · intro now f rest hd
    simp [startRun, hd]

/-- C3 witness: a read returning `io.EOF` ends `Start` with a nil error;
a read returning a plain I/O error ends it with that error wrapped; a
done context ends it with the context error; in the EOF case the
resulting transport has its close guard fired. -/
theorem start_spec_witness :
    startRun stW [.read 0 (.error .eof)] = some ((TClose stW).1, none) ∧
    (GoError.ioError "broken pipe" ≠ GoError.eof ∧
     startRun stW [.read 0 (.error (.ioError "broken pipe"))] =
       some ((TClose stW).1,
         some (.wrapped "dispatch incoming frame failed:"
           (.ioError "broken pipe")))) ∧
    startRun stW [.ctxDone] = some ((TClose stW).1, some .ctxCanceled) ∧
    (TClose stW).1.onceDone = true := by
  refine ⟨(start_spec stW).2.1 0 [], ⟨by decide, ?_⟩, (start_spec stW).2.2.2.2.1 [], ?_⟩
  · exact (start_spec stW).2.2.1 0 (.ioError "broken pipe") [] (by decide)
  · exact (start_spec stW).1 [.read 0 (.error .eof)] (TClose stW).1 none
      ((start_spec stW).2.1 0 [])

/-- Bitwise absorption: setting a bit mask and then testing it always
succeeds. -/
theorem lor_land_absorb (x y : Nat) : (x ||| y) &&& y = y := by
  apply Nat.eq_of_testBit_eq
  intro i
  simp only [Nat.testBit_land, Nat.testBit_lor]
  cases x.testBit i <;> cases y.testBit i <;> simp

/-- C9: `NewWriteablePayloadFrame` sets the Metadata flag iff the
metadata is non-empty or the caller passed the flag; `Metadata` and
`MetadataUTF8` return the metadata with `ok = true` exactly when that
flag is set (empty with `ok = false` otherwise); and on the wire the
metadata is written length-prefixed between header and data. -/
theorem payload_metadata_flag_spec (id : Nat) (data metadata : List Nat)
    (flag : FrameFlag) (f : WriteablePayloadFrame)
    (hf : f = NewWriteablePayloadFrame id data metadata flag) :
    (f.header.flag.Check FlagMetadata
      = (decide (metadata.length > 0) || flag.Check FlagMetadata)) ∧
    (f.Metadata = (if f.header.flag.Check FlagMetadata then metadata else [],
      f.header.flag.Check FlagMetadata)) ∧
    (f.MetadataUTF8 = (if f.header.flag.Check FlagMetadata then metadata
      else [], f.header.flag.Check FlagMetadata)) ∧
    (metadata.length > 0 →
      f.WriteTo = f.header.WriteTo ++ uint24BE metadata.length ++ metadata
        ++ data) := by
  subst hf
  refine ⟨?_, rfl, rfl, ?_⟩
  · by_cases hm : metadata.length > 0
    · have h1 : FrameFlag.Check (flag ||| FlagMetadata) FlagMetadata
          = true := by
        simp [FrameFlag.Check, lor_land_absorb]
      simp [NewWriteablePayloadFrame, NewFrameHeader, hm, h1]
    · simp [NewWriteablePayloadFrame, NewFrameHeader, hm]
  · intro hm
    simp [NewWriteablePayloadFrame, NewFrameHeader,
      WriteablePayloadFrame.WriteTo, writePayload, hm, List.append_assoc]

/-- C9 witness: for id 3, data `[1]`, metadata `[2,3]` and empty caller
flag, the Metadata flag is set, `Metadata` returns the metadata with
`ok = true`, and the wire bytes carry the length-prefixed metadata before
the data. -/
theorem payload_metadata_flag_spec_witness :
    ((NewWriteablePayloadFrame 3 [1] [2, 3] 0).header.flag.Check FlagMetadata
      = (decide (([2, 3] : List Nat).length > 0)
          || FrameFlag.Check 0 FlagMetadata)) ∧
    ((NewWriteablePayloadFrame 3 [1] [2, 3] 0).Metadata =
      (if (NewWriteablePayloadFrame 3 [1] [2, 3] 0).header.flag.Check
          FlagMetadata then [2, 3] else [],
       (NewWriteablePayloadFrame 3 [1] [2, 3] 0).header.flag.Check
          FlagMetadata)) ∧
    ((NewWriteablePayloadFrame 3 [1] [2, 3] 0).WriteTo =
      (NewWriteablePayloadFrame 3 [1] [2, 3] 0).header.WriteTo
        ++ uint24BE ([2, 3] : List Nat).length ++ [2, 3] ++ [1]) := by
  have h := payload_metadata_flag_spec 3 [1] [2, 3] 0
    (NewWriteablePayloadFrame 3 [1] [2, 3] 0) rfl
  exact ⟨h.1, h.2.1, h.2.2.2 (by decide)⟩

/-- C1: codec round-trip — decoding the bytes written by
`WriteablePayloadFrame.WriteTo` (header, then length-prefixed metadata,
then data) yields a Payload frame with the same stream id, flags,
metadata and data. Valid fields: 31-bit stream id, 10-bit flags, metadata
shorter than 2^24 bytes, and the Metadata flag not passed with empty
metadata. -/
theorem payload_codec_roundtrip (id : Nat) (data metadata : List Nat)
    (flag : Nat)
    (hid : id < 2 ^ 31) (hflag : flag < 1024) (hmd : metadata.length < 2 ^ 24)
    (hcons : metadata.length = 0 → flag &&& FlagMetadata = 0) :
    decodePayloadFrame
        (NewWriteablePayloadFrame id data metadata flag).WriteTo =
      some { streamID := id
             flag := (NewWriteablePayloadFrame id data metadata flag).header.flag
             metadata :=
               if (NewWriteablePayloadFrame id data metadata
                   flag).header.flag.Check FlagMetadata
               then some metadata else none
             data := data } := by
  have hsid : (id / 16777216 % 256 * 16777216 + id / 65536 % 256 * 65536
      + id / 256 % 256 * 256 + id % 256) % 2147483648 = id := by omega
  by_cases hm : metadata.length = 0
  · have hflag0 : flag &&& FlagMetadata = 0 := hcons hm
    have hmnil : metadata = [] := List.length_eq_zero.mp hm
    subst hmnil
    have hchk : FrameFlag.Check flag FlagMetadata = false := by
      simp only [FrameFlag.Check]
      rw [hflag0]
      decide
    have hft : (FrameTypePayload * 4 + flag / 256) % 256 / 4
        = FrameTypePayload := by
      simp only [FrameTypePayload]
      omega
    have hfl : (FrameTypePayload * 4 + flag / 256) % 256 % 4 * 256
        + flag % 256 = flag := by
      simp only [FrameTypePayload]
      omega
    simp only [NewWriteablePayloadFrame, List.length_nil, gt_iff_lt,
      Nat.lt_irrefl, if_false, NewFrameHeader, WriteablePayloadFrame.WriteTo,
      writePayload, FrameHeader.WriteTo]
    simp only [List.cons_append, List.nil_append, decodePayloadFrame]
    simp [hft, hfl, hchk, hsid]
  · have hmpos : metadata.length > 0 := Nat.pos_of_ne_zero hm
    have hF : flag ||| FlagMetadata < 1024 := by
      have h256 : FlagMetadata < 2 ^ 10 := by decide
      have := Nat.or_lt_two_pow (show flag < 2 ^ 10 by omega) h256
      omega
    have hchkT : FrameFlag.Check (flag ||| FlagMetadata) FlagMetadata
        = true := by
      simp [FrameFlag.Check, lor_land_absorb]
    have hft : (FrameTypePayload * 4 + (flag ||| FlagMetadata) / 256) % 256 / 4
        = FrameTypePayload := by
      simp only [FrameTypePayload]
      omega
    have hfl : (FrameTypePayload * 4 + (flag ||| FlagMetadata) / 256) % 256 % 4
        * 256 + (flag ||| FlagMetadata) % 256 = flag ||| FlagMetadata := by
      simp only [FrameTypePayload]
      omega
    have hlen : metadata.length / 65536 % 256 * 65536
        + metadata.length / 256 % 256 * 256 + metadata.length % 256
        = metadata.length := by omega
    have hle : metadata.length ≤ (metadata ++ data).length := by
      simp [List.length_append]
    have htake : (metadata ++ data).take metadata.length = metadata :=
      List.take_left metadata data
    have hdrop : (metadata ++ data).drop metadata.length = data :=
      List.drop_left metadata data
    simp only [NewWriteablePayloadFrame, hmpos, if_pos, NewFrameHeader,
      WriteablePayloadFrame.WriteTo, writePayload, FrameHeader.WriteTo,
      uint24BE]
    simp only [List.cons_append, List.nil_append, List.append_assoc,
      decodePayloadFrame]
    simp [hft, hfl, hchkT, hsid, hlen, hle, htake, hdrop]

/-- C1 witness: the frame with stream id 7, data `[1,2]`, metadata `[3]`
and empty caller flag round-trips through encode and decode. -/
theorem payload_codec_roundtrip_witness :
    7 < 2 ^ 31 ∧
    decodePayloadFrame
        (NewWriteablePayloadFrame 7 [1, 2] [3] 0).WriteTo =
      some { streamID := 7
             flag := (NewWriteablePayloadFrame 7 [1, 2] [3] 0).header.flag
             metadata :=
               if (NewWriteablePayloadFrame 7 [1, 2]
                   [3] 0).header.flag.Check FlagMetadata
               then some [3] else none
             data := [1, 2] } :=
  ⟨by norm_num,
   payload_codec_roundtrip 7 [1, 2] [3] 0 (by norm_num) (by norm_num)
     (by norm_num) (by decide)⟩
